import Mathlib

/-!
Verification development for the UnityMCP out-of-process command execution
subsystem (src/UnityMCP/unity_manager.py and src/config.py).

The Python code is shallowly embedded: the external world (filesystem,
OS process creation, the subprocess's behaviour, the wall clock) is passed
in as explicit data, and `UnityManager.execute_unity_command` /
`UnityManager.cleanup` become pure functions over that data.  `json.loads`
is modelled by an executable JSON parser that reproduces CPython's
behaviour (including its error-message format) on the inputs used here.
-/

namespace UnityMCP

/-! ## JSON values (model of Python objects produced by json.loads) -/

/-- A JSON value.  Numbers are modelled as integers; the development only
exercises integer-valued numbers. -/
inductive Json where
  | null : Json
  | bool (b : Bool) : Json
  | num (n : Int) : Json
  | str (s : String) : Json
  | arr (elems : List Json) : Json
  | obj (fields : List (String × Json)) : Json

/-! ## A model of CPython json.loads

The parser works on the character list of the document, tracking the
absolute character position for error messages.  Errors are reported the
way CPython's json module reports them:
`"<msg>: line <lineno> column <colno> (char <pos>)"` where
`lineno = count of newlines before pos + 1` and
`colno = pos - (index of last newline before pos)` (or `pos + 1` when
there is none). -/

/-- JSON whitespace characters, as in CPython json. -/
def jsonWs (c : Char) : Bool :=
  c = ' ' || c = '\t' || c = '\n' || c = '\r'

/-- Skip whitespace, advancing the position counter. -/
def skipWs : List Char → Nat → List Char × Nat
  | [], pos => ([], pos)
  | c :: rest, pos =>
    if jsonWs c then skipWs rest (pos + 1) else (c :: rest, pos)

/-- Take a maximal run of decimal digits. -/
def takeDigits : List Char → List Char × List Char
  | [] => ([], [])
  | c :: rest =>
    if c.isDigit then
      let p := takeDigits rest
      (c :: p.1, p.2)
    else ([], c :: rest)

/-- Decimal value of a digit run. -/
def digitsToNat (ds : List Char) : Nat :=
  ds.foldl (fun acc c => acc * 10 + (c.toNat - 48)) 0

/-- Translation of a JSON string escape character. -/
def escChar (c : Char) : Option Char :=
  if c = '"' then some '"'
  else if c = '\\' then some '\\'
  else if c = '/' then some '/'
  else if c = 'n' then some '\n'
  else if c = 't' then some '\t'
  else if c = 'r' then some '\r'
  else if c = 'b' then some (Char.ofNat 8)
  else if c = 'f' then some (Char.ofNat 12)
  else none

/-- Parse the body of a JSON string after the opening quote.  `startPos`
is the position of the opening quote (used in the unterminated-string
error, as in CPython); `acc` holds the decoded characters reversed. -/
def parseStringBody (startPos : Nat) :
    List Char → Nat → List Char → Except (String × Nat) (String × List Char × Nat)
  | [], _, _ => .error ("Unterminated string starting at", startPos)
  | c :: rest, pos, acc =>
    if c = '"' then .ok (String.mk acc.reverse, rest, pos + 1)
    else if c = '\\' then
      match rest with
      | [] => .error ("Unterminated string starting at", startPos)
      | e :: rest2 =>
        match escChar e with
        | some ec => parseStringBody startPos rest2 (pos + 2) (ec :: acc)
        | none => .error ("Invalid \\escape", pos)
  else parseStringBody startPos rest (pos + 1) (c :: acc)

mutual

/-- Parse one JSON value (fuel-based recursion; the fuel passed by
`json_loads` always suffices since every recursive call consumes input). -/
def parseValue : Nat → List Char → Nat → Except (String × Nat) (Json × List Char × Nat)
  | 0, _, pos => .error ("Expecting value", pos)
  | fuel + 1, l0, pos0 =>
    let sp := skipWs l0 pos0
    match sp.1, sp.2 with
    | [], pos => .error ("Expecting value", pos)
    | c :: rest, pos =>
      if c = 'n' then
        match rest with
        | 'u' :: 'l' :: 'l' :: r => .ok (.null, r, pos + 4)
        | _ => .error ("Expecting value", pos)
      else if c = 't' then
        match rest with
        | 'r' :: 'u' :: 'e' :: r => .ok (.bool true, r, pos + 4)
        | _ => .error ("Expecting value", pos)
      else if c = 'f' then
        match rest with
        | 'a' :: 'l' :: 's' :: 'e' :: r => .ok (.bool false, r, pos + 5)
        | _ => .error ("Expecting value", pos)
      else if c = '"' then
        match parseStringBody pos rest (pos + 1) [] with
        | .ok (s, r, p) => .ok (.str s, r, p)
        | .error e => .error e
      else if c = '-' then
        match takeDigits rest with
        | ([], _) => .error ("Expecting value", pos)
        | (ds, r) => .ok (.num (-(digitsToNat ds : Int)), r, pos + 1 + ds.length)
      else if c.isDigit then
        let p := takeDigits (c :: rest)
        .ok (.num (digitsToNat p.1), p.2, pos + p.1.length)
      else if c = '[' then
        let sp2 := skipWs rest (pos + 1)
        match sp2.1, sp2.2 with
        | ']' :: r, p1 => .ok (.arr [], r, p1 + 1)
        | l1, p1 => parseArrayItems fuel l1 p1 []
      else if c = '{' then
        let sp2 := skipWs rest (pos + 1)
        match sp2.1, sp2.2 with
        | '}' :: r, p1 => .ok (.obj [], r, p1 + 1)
        | l1, p1 => parseObjItems fuel l1 p1 []
      else .error ("Expecting value", pos)

/-- Parse the items of a non-empty JSON array, accumulator reversed. -/
def parseArrayItems : Nat → List Char → Nat → List Json →
    Except (String × Nat) (Json × List Char × Nat)
  | 0, _, pos, _ => .error ("Expecting value", pos)
  | fuel + 1, l, pos, acc =>
    match parseValue fuel l pos with
    | .error e => .error e
    | .ok (v, l1, p1) =>
      let sp := skipWs l1 p1
      match sp.1, sp.2 with
      | ',' :: r, p2 => parseArrayItems fuel r (p2 + 1) (v :: acc)
      | ']' :: r, p2 => .ok (.arr (v :: acc).reverse, r, p2 + 1)
      | _, p2 => .error ("Expecting \x27,\x27 delimiter", p2)

/-- Parse the members of a non-empty JSON object, accumulator reversed. -/
def parseObjItems : Nat → List Char → Nat → List (String × Json) →
    Except (String × Nat) (Json × List Char × Nat)
  | 0, _, pos, _ => .error ("Expecting value", pos)
  | fuel + 1, l, pos, acc =>
    let sp := skipWs l pos
    match sp.1, sp.2 with
    | '"' :: r, p1 =>
      match parseStringBody p1 r (p1 + 1) [] with
      | .error e => .error e
      | .ok (k, l2, p2) =>
        let sp3 := skipWs l2 p2
        match sp3.1, sp3.2 with
        | ':' :: r3, p3 =>
          match parseValue fuel r3 (p3 + 1) with
          | .error e => .error e
          | .ok (v, l4, p4) =>
            let sp5 := skipWs l4 p4
            match sp5.1, sp5.2 with
            | ',' :: r5, p5 => parseObjItems fuel r5 (p5 + 1) ((k, v) :: acc)
            | '}' :: r5, p5 => .ok (.obj ((k, v) :: acc).reverse, r5, p5 + 1)
            | _, p5 => .error ("Expecting \x27,\x27 delimiter", p5)
        | _, p3 => .error ("Expecting \x27:\x27 delimiter", p3)
    | _, p1 => .error ("Expecting property name enclosed in double quotes", p1)

end

/-- Number of newline characters in a prefix. -/
def countNewlines (l : List Char) : Nat :=
  (l.filter (fun c => c = '\n')).length

/-- Index of the last newline in a prefix, if any. -/
def rfindNewline (pre : List Char) : Option Nat :=
  match pre.reverse.findIdx? (fun c => c = '\n') with
  | none => none
  | some j => some (pre.length - 1 - j)

/-- Format an error the way CPython's json module does. -/
def jsonErrMsg (msg : String) (doc : String) (pos : Nat) : String :=
  let pre := doc.toList.take pos
  let lineno := countNewlines pre + 1
  let colno :=
    match rfindNewline pre with
    | none => pos + 1
    | some i => pos - i
  msg ++ ": line " ++ Nat.repr lineno ++ " column " ++ Nat.repr colno ++
    " (char " ++ Nat.repr pos ++ ")"

/-- Model of Python json.loads: parse one value, then require only
whitespace to follow (otherwise "Extra data", as CPython does).  On
failure the error is the exception's message text str(e). -/
def json_loads (doc : String) : Except String Json :=
  let l := doc.toList
  match parseValue (l.length + 1) l 0 with
  | .error (m, p) => .error (jsonErrMsg m doc p)
  | .ok (v, rest, pos) =>
    let sp := skipWs rest pos
    match sp.1 with
    | [] => .ok v
    | _ => .error (jsonErrMsg "Extra data" doc sp.2)

/-! ## Filesystem model and project validation (src/config.py) -/

/-- One filesystem entry: an absolute path and whether it is a directory. -/
structure FSEntry where
  path : String
  isDir : Bool
deriving Repr, DecidableEq

/-- A filesystem is the list of existing entries. -/
abbrev FileSystem := List FSEntry

/-- Model of pathlib Path.exists(). -/
def fsExists (fs : FileSystem) (p : String) : Bool :=
  fs.any (fun e => e.path == p)

/-- Model of pathlib Path.is_dir(). -/
def fsIsDir (fs : FileSystem) (p : String) : Bool :=
  fs.any (fun e => e.path == p && e.isDir)

/-- MCPConfig.validate_unity_project_path (src/config.py lines 114-122):
the path exists, is a directory, and the entries path/Assets and
path/ProjectSettings exist (their existence is checked with Path.exists,
not Path.is_dir). -/
def validate_unity_project_path (fs : FileSystem) (path : String) : Bool :=
  fsExists fs path && fsIsDir fs path &&
    fsExists fs (path ++ "/Assets") && fsExists fs (path ++ "/ProjectSettings")

/-- The validation predicate as the spec words it (section 6): true iff the
path exists, is a directory, and contains both an assets SUBDIRECTORY and a
settings SUBDIRECTORY.  Used only to compare the spec's wording with the
source's `validate_unity_project_path`. -/
def spec_validate_project_path (fs : FileSystem) (path : String) : Bool :=
  fsExists fs path && fsIsDir fs path &&
    fsIsDir fs (path ++ "/Assets") && fsIsDir fs (path ++ "/ProjectSettings")

/-! ## Operation tracker state (src/UnityMCP/unity_manager.py) -/

/-- UnityOperation (unity_manager.py lines 22-31).  Timestamps are clock
readings (Nat); `result` holds the decoded JSON on success. -/
structure UnityOperation where
  id : String
  command : String
  project_path : String
  status : String
  start_time : Option Nat
  end_time : Option Nat
  result : Option Json
  error : Option String

/-- Lookup in a Python dict modelled as an association list. -/
def dictGet {α : Type} : List (String × α) → String → Option α
  | [], _ => none
  | (k2, v) :: rest, k => if k2 = k then some v else dictGet rest k

/-- Python dict assignment d[k] = v: overwrite in place if the key is
present (keeping its insertion position, as Python dicts do), else append. -/
def dictInsert {α : Type} : List (String × α) → String → α → List (String × α)
  | [], k, v => [(k, v)]
  | (k2, v2) :: rest, k, v =>
    if k2 = k then (k, v) :: rest else (k2, v2) :: dictInsert rest k v

/-- An OS process, as the OS sees it: its pid and whether it is alive. -/
structure Proc where
  pid : Nat
  alive : Bool
deriving Repr, DecidableEq

/-- The mutable state of a UnityManager, together with the OS's view of
every subprocess spawned so far (`os_processes`).  `unity_processes`
models self.unity_processes (operation id to pid); `bridge_script_exists`
models the generated bridge script file on disk. -/
structure ManagerState where
  active_operations : List (String × UnityOperation)
  unity_processes : List (String × Nat)
  bridge_script_exists : Bool
  os_processes : List Proc

/-- A fresh UnityManager right after construction (empty dicts, bridge
script written by _create_bridge_script). -/
def initialManagerState : ManagerState :=
  { active_operations := [], unity_processes := [],
    bridge_script_exists := true, os_processes := [] }

/-! ## The external world of one execute_unity_command call -/

/-- Outcome of awaiting process.communicate under asyncio.wait_for:
either the timeout fires first, or the subprocess exits with a return
code and captured stdout/stderr (already decoded to text). -/
inductive CommOutcome where
  | timeout : CommOutcome
  | exited (returncode : Int) (stdout : String) (stderr : String) : CommOutcome
deriving Repr, DecidableEq

/-- The environment of one call: whether the OS can create the subprocess
(`spawnOk`; `spawnErrMsg` is str(e) of the raised OSError otherwise), and
what the subprocess then does. -/
structure ExecEnv where
  spawnOk : Bool
  spawnErrMsg : String
  comm : CommOutcome
deriving Repr, DecidableEq

/-- Which raise site of execute_unity_command produced the error; the five
kinds of the specification's error taxonomy. -/
inductive ErrKind where
  | projectInvalid : ErrKind
  | launchFailed : ErrKind
  | timeout : ErrKind
  | processFailed : ErrKind
  | malformedResponse : ErrKind
deriving Repr, DecidableEq

/-- What execute_unity_command does for the caller: return the decoded
result, or raise. -/
inductive ExecResult where
  | ok (v : Json) : ExecResult
  | raised (kind : ErrKind) (msg : String) : ExecResult

/-- Observable trace of one call: the operation id it used, whether a
subprocess was created, whether terminate/kill was invoked on it during
the call, and the successive values assigned to operation.status
(initial "pending" included, in program order). -/
structure ExecTrace where
  opId : String
  spawned : Bool
  terminateCalled : Bool
  statusHistory : List String

/-- UnityManager.execute_unity_command (unity_manager.py lines 181-274).

The wall clock is `clock`: reading k is the value of the k-th
datetime.now() slot (0 = the timestamp in the operation id, 1 =
start_time, 3 = the end_time assignment in the finally block, which
always runs last and overwrites any earlier end_time).  `newPid` is the
pid the OS would give the subprocess.  Control flow translated branch by
branch:

  - line 190: operation_id = action + underscore + str(timestamp);
  - lines 191-198: the record is registered in active_operations BEFORE
    validation;
  - lines 200-203: invalid path raises ValueError, caught by the generic
    except at 267 which marks the record failed;
  - lines 224-230: subprocess creation (an OSError is caught at 267);
    the spawned process is never added to unity_processes;
  - lines 234-237: wait_for(communicate, timeout); on timeout the except
    at 261-265 marks the record failed and re-raises TimeoutError WITHOUT
    terminating the subprocess, which stays alive;
  - lines 240-254: zero exit, json.loads success returns the decoded
    value verbatim; decode failure marks failed (252) and raises
    ValueError, re-marked failed by the except at 267;
  - lines 255-259: nonzero exit marks failed and raises RuntimeError,
    re-marked failed at 267;
  - lines 273-274: finally sets end_time on every path. -/
def execute_unity_command (fs : FileSystem) (env : ExecEnv) (st : ManagerState)
    (action project_path : String) (timeout : Nat) (clock : Nat → Nat)
    (newPid : Nat) : ExecResult × ManagerState × ExecTrace :=
  let operation_id := action ++ "_" ++ Nat.repr (clock 0)
  let op0 : UnityOperation :=
    { id := operation_id
      command := action
      project_path := project_path
      status := "pending"
      start_time := some (clock 1)
      end_time := none
      result := none
      error := none }
  if validate_unity_project_path fs project_path = false then
    let msg := "Invalid Unity project path: " ++ project_path
    let finalOp := { op0 with
      status := "failed"
      error := some msg
      end_time := some (clock 3) }
    (.raised .projectInvalid msg,
     { st with active_operations :=
         dictInsert st.active_operations operation_id finalOp },
     { opId := operation_id
       spawned := false
       terminateCalled := false
       statusHistory := ["pending", "failed"] })
  else if env.spawnOk = false then
    let msg := env.spawnErrMsg
    let finalOp := { op0 with
      status := "failed"
      error := some msg
      end_time := some (clock 3) }
    (.raised .launchFailed msg,
     { st with active_operations :=
         dictInsert st.active_operations operation_id finalOp },
     { opId := operation_id
       spawned := false
       terminateCalled := false
       statusHistory := ["pending", "failed"] })
  else
    match env.comm with
    | .timeout =>
      let msg := "Unity command timed out after " ++ Nat.repr timeout ++ " seconds"
      let finalOp := { op0 with
        status := "failed"
        error := some msg
        end_time := some (clock 3) }
      (.raised .timeout msg,
       { st with
         active_operations := dictInsert st.active_operations operation_id finalOp
         os_processes := st.os_processes ++ [{ pid := newPid, alive := true }] },
       { opId := operation_id
         spawned := true
         terminateCalled := false
         statusHistory := ["pending", "failed"] })
    | .exited rc stdout stderr =>
      let osp := st.os_processes ++ [{ pid := newPid, alive := false }]
      if rc = 0 then
        match json_loads stdout with
        | .ok result =>
          let finalOp := { op0 with
            status := "completed"
            result := some result
            end_time := some (clock 3) }
          (.ok result,
           { st with
             active_operations := dictInsert st.active_operations operation_id finalOp
             os_processes := osp },
           { opId := operation_id
             spawned := true
             terminateCalled := false
             statusHistory := ["pending", "completed"] })
        | .error e =>
          let msg := "Failed to parse Unity output: " ++ e
          let finalOp := { op0 with
            status := "failed"
            error := some msg
            end_time := some (clock 3) }
          (.raised .malformedResponse msg,
           { st with
             active_operations := dictInsert st.active_operations operation_id finalOp
             os_processes := osp },
           { opId := operation_id
             spawned := true
             terminateCalled := false
             statusHistory := ["pending", "failed", "failed"] })
      else
        let msg := "Unity process failed with code " ++ toString rc ++ ": " ++ stderr
        let finalOp := { op0 with
          status := "failed"
          error := some msg
          end_time := some (clock 3) }
        (.raised .processFailed msg,
         { st with
           active_operations := dictInsert st.active_operations operation_id finalOp
           os_processes := osp },
         { opId := operation_id
           spawned := true
           terminateCalled := false
           statusHistory := ["pending", "failed", "failed"] })

/-- UnityManager.cleanup (unity_manager.py lines 297-321): for every
entry of self.unity_processes whose process is still alive, terminate
(then kill) it; clear unity_processes and active_operations; remove the
bridge script if it exists. -/
def cleanup (st : ManagerState) : ManagerState :=
  let os2 := st.os_processes.map (fun p =>
    if st.unity_processes.any (fun q => q.2 == p.pid) && p.alive then
      { p with alive := false }
    else p)
  { active_operations := [], unity_processes := [],
    bridge_script_exists := false, os_processes := os2 }

/-! ## Fixtures for concrete runs -/

/-- A valid Unity project directory at /proj. -/
def fsGood : FileSystem :=
  [{ path := "/proj", isDir := true }, { path := "/proj/Assets", isDir := true },
   { path := "/proj/ProjectSettings", isDir := true }]

/-- Environment: spawn succeeds and the subprocess hangs past the timeout. -/
def envTimeout : ExecEnv := { spawnOk := true, spawnErrMsg := "", comm := .timeout }

/-- Environment: spawn succeeds, subprocess exits 0 with stdout an empty
JSON object. -/
def envJsonOk : ExecEnv :=
  { spawnOk := true, spawnErrMsg := "", comm := .exited 0 "\x7b\x7d" "" }

/-- Environment: spawn succeeds, subprocess exits 0 with non-JSON stdout. -/
def envNotJson : ExecEnv :=
  { spawnOk := true, spawnErrMsg := "", comm := .exited 0 "not json" "" }

/-- Environment: spawn succeeds, subprocess exits 1 with stderr text. -/
def envExit1 : ExecEnv :=
  { spawnOk := true, spawnErrMsg := "", comm := .exited 1 "" "NullReferenceException" }

/-- Whether pat is a prefix of the second list. -/
def isPrefixList : List Char → List Char → Bool
  | [], _ => true
  | _ :: _, [] => false
  | a :: xs, b :: ys => a == b && isPrefixList xs ys

/-- Whether pat occurs as a contiguous substring of the second list. -/
def containsSub (pat : List Char) : List Char → Bool
  | [] => isPrefixList pat []
  | c :: rest => isPrefixList pat (c :: rest) || containsSub pat rest

/-- A manager state with one tracked, still-alive subprocess handle. -/
def stTracked : ManagerState :=
  { active_operations := [], unity_processes := [("op1", 3)],
    bridge_script_exists := true, os_processes := [{ pid := 3, alive := true }] }

/-- A filesystem where /p/Assets exists but is a regular file, not a
directory. -/
def fsAssetsFile : FileSystem :=
  [{ path := "/p", isDir := true }, { path := "/p/Assets", isDir := false },
   { path := "/p/ProjectSettings", isDir := true }]

/-! ## Helper lemmas -/

/-- Looking up the key just inserted returns the inserted value. -/
theorem dictGet_dictInsert {α : Type} (d : List (String × α)) (k : String) (v : α) :
    dictGet (dictInsert d k v) k = some v := by
  induction d with
  | nil => simp [dictInsert, dictGet]
  | cons hd tl ih =>
    obtain ⟨k2, v2⟩ := hd
    by_cases h : k2 = k <;> simp [dictInsert, dictGet, h, ih]

/-- Nat.toDigitsCore with surplus fuel equals the canonical digit list
prepended to the accumulator. -/
theorem toDigitsCore_shift :
    ∀ n f ds, n < f →
      Nat.toDigitsCore 10 f n ds = Nat.toDigitsCore 10 (n + 1) n [] ++ ds := by
  intro n
  induction n using Nat.strong_induction_on with
  | _ n ih =>
    intro f ds hf
    match f, hf with
    | f + 1, hf =>
      simp only [Nat.toDigitsCore]
      by_cases h : n / 10 = 0
      · simp [h]
      · simp only [h, if_false]
        have hn : 0 < n := by
          rcases Nat.eq_zero_or_pos n with h0 | h0
          · subst h0; simp at h
          · exact h0
        have hlt : n / 10 < n := Nat.div_lt_self hn (by norm_num)
        have h1 : n / 10 < f := by omega
        rw [ih (n / 10) hlt f (Nat.digitChar (n % 10) :: ds) h1,
            ih (n / 10) hlt n [Nat.digitChar (n % 10)] (by omega)]
        simp

/-- Reading back a decimal digit character. -/
theorem digitChar_sub (m : Nat) (h : m < 10) : (Nat.digitChar m).toNat - 48 = m := by
  interval_cases m <;> rfl

/-- The decimal digit string of n evaluates back to n. -/
theorem digitsToNat_toDigits (n : Nat) : digitsToNat (Nat.toDigits 10 n) = n := by
  induction n using Nat.strong_induction_on with
  | _ n ih =>
    unfold Nat.toDigits
    simp only [Nat.toDigitsCore]
    by_cases h : n / 10 = 0
    · have hn : n < 10 := by omega
      simp [h, digitsToNat, digitChar_sub n hn, Nat.mod_eq_of_lt hn]
    · have hn : 0 < n := by
        rcases Nat.eq_zero_or_pos n with h0 | h0
        · subst h0; simp at h
        · exact h0
      have hlt : n / 10 < n := Nat.div_lt_self hn (by norm_num)
      simp only [h, if_false]
      rw [toDigitsCore_shift (n / 10) n [Nat.digitChar (n % 10)] hlt]
      have hsplit : digitsToNat (Nat.toDigits 10 (n / 10) ++ [Nat.digitChar (n % 10)]) =
          digitsToNat (Nat.toDigits 10 (n / 10)) * 10 +
            ((Nat.digitChar (n % 10)).toNat - 48) := by
        simp [digitsToNat, List.foldl_append]
      unfold Nat.toDigits at hsplit
      have ih2 := ih (n / 10) hlt
      unfold Nat.toDigits at ih2
      rw [hsplit, ih2, digitChar_sub (n % 10) (Nat.mod_lt n (by norm_num))]
      omega

/-- The decimal rendering of a natural number is injective. -/
theorem natRepr_inj {m n : Nat} (h : Nat.repr m = Nat.repr n) : m = n := by
  have hd : Nat.toDigits 10 m = Nat.toDigits 10 n := by
    have := congrArg String.data h
    simpa [Nat.repr] using this
  have := congrArg digitsToNat hd
  rwa [digitsToNat_toDigits, digitsToNat_toDigits] at this

/-- Every execution path builds the operation id as
action ++ underscore ++ str(timestamp reading at entry). -/
theorem opId_eq (fs : FileSystem) (env : ExecEnv) (st : ManagerState)
    (action project_path : String) (timeout : Nat) (clock : Nat → Nat)
    (newPid : Nat) :
    (execute_unity_command fs env st action project_path timeout clock newPid).2.2.opId =
      action ++ "_" ++ Nat.repr (clock 0) := by
  obtain ⟨so, sm, comm⟩ := env
  rcases comm with _ | ⟨rc, out, err⟩ <;>
    simp only [execute_unity_command] <;>
    repeat first | rfl | split

/-! ## Claim theorems -/

/-- C1: the claim says a timed-out operation terminates its subprocess
before the Timeout error is raised and never leaves a live subprocess
behind.  The code does not: at a concrete run where the subprocess hangs
past the timeout, execute raises the Timeout error without any
terminate/kill call, the spawned OS process is still alive afterwards,
and it was never registered in unity_processes either. -/
theorem c1_timeout_orphans_subprocess :
    (execute_unity_command fsGood envTimeout initialManagerState "build.run" "/proj" 1
        (fun n => n) 7).1 =
      .raised .timeout "Unity command timed out after 1 seconds" ∧
    (execute_unity_command fsGood envTimeout initialManagerState "build.run" "/proj" 1
        (fun n => n) 7).2.2.spawned = true ∧
    (execute_unity_command fsGood envTimeout initialManagerState "build.run" "/proj" 1
        (fun n => n) 7).2.2.terminateCalled = false ∧
    (execute_unity_command fsGood envTimeout initialManagerState "build.run" "/proj" 1
        (fun n => n) 7).2.1.os_processes = [{ pid := 7, alive := true }] ∧
    (execute_unity_command fsGood envTimeout initialManagerState "build.run" "/proj" 1
        (fun n => n) 7).2.1.unity_processes = [] :=
  ⟨rfl, rfl, rfl, rfl, rfl⟩

/-- C2 counterexample: the claim says that on a project_path failing
validation no operation record is created in the tracker.  At this
concrete invalid path, execute does fail with ProjectInvalid and spawns
nothing, but a record IS present in active_operations afterwards. -/
theorem c2_record_created_on_invalid_path :
    (execute_unity_command [] envJsonOk initialManagerState "test.run" "/bad" 300
        (fun n => n) 4).1 =
      .raised .projectInvalid "Invalid Unity project path: /bad" ∧
    (execute_unity_command [] envJsonOk initialManagerState "test.run" "/bad" 300
        (fun n => n) 4).2.2.spawned = false ∧
    (dictGet (execute_unity_command [] envJsonOk initialManagerState "test.run" "/bad" 300
        (fun n => n) 4).2.1.active_operations "test.run_0").isSome = true :=
  ⟨rfl, rfl, rfl⟩

/-- C2 amended: for every project_path failing validation, execute fails
with ProjectInvalid and no subprocess is spawned, but an operation record
IS created in the tracker (before validation) and ends in status failed
with the validation error recorded. -/
theorem c2_invalid_path_no_spawn_but_record (fs : FileSystem) (env : ExecEnv)
    (st : ManagerState) (action project_path : String) (timeout : Nat)
    (clock : Nat → Nat) (newPid : Nat)
    (h : validate_unity_project_path fs project_path = false) :
    (execute_unity_command fs env st action project_path timeout clock newPid).1 =
      .raised .projectInvalid ("Invalid Unity project path: " ++ project_path) ∧
    (execute_unity_command fs env st action project_path timeout clock newPid).2.2.spawned
      = false ∧
    ∃ op, dictGet (execute_unity_command fs env st action project_path timeout clock
        newPid).2.1.active_operations (action ++ "_" ++ Nat.repr (clock 0)) = some op ∧
      op.status = "failed" ∧
      op.error = some ("Invalid Unity project path: " ++ project_path) := by
  simp only [execute_unity_command, h]
  exact ⟨rfl, rfl, _, dictGet_dictInsert _ _ _, rfl, rfl⟩

/-- C2 witness: the amended theorem applied at a concrete invalid path. -/
theorem c2_invalid_path_witness :
    (execute_unity_command [] envJsonOk initialManagerState "asset.audit" "/nowhere" 300
        (fun n => n) 5).1 =
      .raised .projectInvalid ("Invalid Unity project path: " ++ "/nowhere") ∧
    (execute_unity_command [] envJsonOk initialManagerState "asset.audit" "/nowhere" 300
        (fun n => n) 5).2.2.spawned = false ∧
    ∃ op, dictGet (execute_unity_command [] envJsonOk initialManagerState "asset.audit"
        "/nowhere" 300 (fun n => n) 5).2.1.active_operations
        ("asset.audit" ++ "_" ++ Nat.repr 0) = some op ∧
      op.status = "failed" ∧
      op.error = some ("Invalid Unity project path: " ++ "/nowhere") :=
  c2_invalid_path_no_spawn_but_record [] envJsonOk initialManagerState "asset.audit"
    "/nowhere" 300 (fun n => n) 5 rfl

/-- C3: when the subprocess exits 0 and its stdout decodes, execute
returns the decoded value verbatim, and the tracker record for the
operation ends completed with result equal to the decoded response and
end_time greater than or equal to start_time (the clock being monotone). -/
theorem c3_success_returns_decoded_verbatim (fs : FileSystem) (env : ExecEnv)
    (st : ManagerState) (action project_path : String) (timeout : Nat)
    (clock : Nat → Nat) (newPid : Nat) (v : Json) (stdout stderr : String)
    (hmono : Monotone clock)
    (hvalid : validate_unity_project_path fs project_path = true)
    (hspawn : env.spawnOk = true)
    (hcomm : env.comm = .exited 0 stdout stderr)
    (hdecode : json_loads stdout = .ok v) :
    (execute_unity_command fs env st action project_path timeout clock newPid).1 = .ok v ∧
    ∃ op, dictGet (execute_unity_command fs env st action project_path timeout clock
        newPid).2.1.active_operations (action ++ "_" ++ Nat.repr (clock 0)) = some op ∧
      op.status = "completed" ∧ op.result = some v ∧
      ∃ s e, op.start_time = some s ∧ op.end_time = some e ∧ s ≤ e := by
  simp only [execute_unity_command, hvalid, hspawn, hcomm, hdecode]
  refine ⟨rfl, _, dictGet_dictInsert _ _ _, rfl, rfl, clock 1, clock 3, rfl, rfl, ?_⟩
  exact hmono (by omega)

/-- C3 witness: the theorem applied at a concrete successful exchange
whose stdout is an empty JSON object. -/
theorem c3_success_witness :
    (execute_unity_command fsGood envJsonOk initialManagerState "project.scan" "/proj" 300
        (fun n => n) 1).1 = .ok (.obj []) ∧
    ∃ op, dictGet (execute_unity_command fsGood envJsonOk initialManagerState "project.scan"
        "/proj" 300 (fun n => n) 1).2.1.active_operations
        ("project.scan" ++ "_" ++ Nat.repr 0) = some op ∧
      op.status = "completed" ∧ op.result = some (.obj []) ∧
      ∃ s e, op.start_time = some s ∧ op.end_time = some e ∧ s ≤ e :=
  c3_success_returns_decoded_verbatim fsGood envJsonOk initialManagerState "project.scan"
    "/proj" 300 (fun n => n) 1 (.obj []) "\x7b\x7d" "" (fun _ _ hab => hab) rfl rfl rfl rfl

/-- C4 counterexample: the claim says every operation whose subprocess is
spawned is set to status running before reaching a terminal state.  At
this concrete successful run the subprocess is spawned but "running" never
occurs in the history of status assignments. -/
theorem c4_running_never_assigned :
    (execute_unity_command fsGood envJsonOk initialManagerState "project.scan" "/proj" 300
        (fun n => n) 1).2.2.spawned = true ∧
    ("running" ∈ (execute_unity_command fsGood envJsonOk initialManagerState "project.scan"
        "/proj" 300 (fun n => n) 1).2.2.statusHistory) = False := by
  constructor
  · rfl
  · simp only [eq_iff_iff, iff_false]
    decide

/-- C4 amended: the status of a record moves one-directionally from
pending directly to a terminal state with no transition back, but the
running state is never assigned; on the failure paths reached through the
generic exception handler the terminal failed status is assigned twice in
a row. -/
theorem c4_status_one_directional (fs : FileSystem) (env : ExecEnv) (st : ManagerState)
    (action project_path : String) (timeout : Nat) (clock : Nat → Nat) (newPid : Nat) :
    (execute_unity_command fs env st action project_path timeout clock
        newPid).2.2.statusHistory = ["pending", "completed"] ∨
    (execute_unity_command fs env st action project_path timeout clock
        newPid).2.2.statusHistory = ["pending", "failed"] ∨
    (execute_unity_command fs env st action project_path timeout clock
        newPid).2.2.statusHistory = ["pending", "failed", "failed"] := by
  obtain ⟨so, sm, comm⟩ := env
  rcases comm with _ | ⟨rc, out, err⟩ <;>
    simp only [execute_unity_command] <;>
    repeat first | simp | split

/-- C5 counterexample: the claim's parenthetical says that after cleanup
no spawned subprocess outlives the gateway.  A subprocess spawned by
execute is never registered in unity_processes, so after a timed-out run
followed by cleanup the spawned OS process is still alive. -/
theorem c5_spawned_subprocess_survives_cleanup :
    (execute_unity_command fsGood envTimeout initialManagerState "scene.validate" "/proj" 2
        (fun n => n) 9).2.2.spawned = true ∧
    (cleanup (execute_unity_command fsGood envTimeout initialManagerState "scene.validate"
        "/proj" 2 (fun n => n) 9).2.1).os_processes = [{ pid := 9, alive := true }] :=
  ⟨rfl, rfl⟩

/-- C5 amended: cleanup clears the Operation Tracker and the
unity_processes dict, removes the bridge script, and terminates every
subprocess registered in unity_processes that is still alive — but
subprocesses spawned by execute are never registered there, so a spawned
subprocess (for example a timed-out one) can outlive the gateway. -/
theorem c5_cleanup_effects (st : ManagerState) :
    (cleanup st).active_operations = [] ∧
    (cleanup st).unity_processes = [] ∧
    (cleanup st).bridge_script_exists = false ∧
    ∀ p ∈ (cleanup st).os_processes,
      st.unity_processes.any (fun q => q.2 == p.pid) = true → p.alive = false := by
  refine ⟨rfl, rfl, rfl, ?_⟩
  intro p hp htracked
  simp only [cleanup, List.mem_map] at hp
  obtain ⟨q, hq, rfl⟩ := hp
  by_cases h : st.unity_processes.any (fun r => r.2 == q.pid) && q.alive
  · simp [h]
  · simp only [h, if_false] at htracked ⊢
    simp only [Bool.and_eq_true] at h
    by_cases ha : q.alive
    · exact absurd ⟨htracked, ha⟩ h
    · simpa using ha

/-- C5 witness: the amended theorem applied to a state with one tracked,
still-alive subprocess, which cleanup terminates. -/
theorem c5_cleanup_witness :
    (cleanup stTracked).active_operations = [] ∧
    (cleanup stTracked).unity_processes = [] ∧
    (cleanup stTracked).bridge_script_exists = false ∧
    ({ pid := 3, alive := false } : Proc).alive = false := by
  have h := c5_cleanup_effects stTracked
  refine ⟨h.1, h.2.1, h.2.2.1, ?_⟩
  exact h.2.2.2 { pid := 3, alive := false } (by decide) (by decide)

/-- C6 counterexample: the claim says the MalformedResponse error carries
the raw captured output.  At a concrete run whose stdout is the literal
text "not json", the raised error message is the JSONDecodeError text and
the raw output does not occur in it. -/
theorem c6_error_lacks_raw_output :
    (execute_unity_command fsGood envNotJson initialManagerState "test.run" "/proj" 300
        (fun n => n) 2).1 =
      .raised .malformedResponse
        "Failed to parse Unity output: Expecting value: line 1 column 1 (char 0)" ∧
    containsSub ("not json".toList)
      ("Failed to parse Unity output: Expecting value: line 1 column 1 (char 0)".toList)
      = false :=
  ⟨rfl, by decide⟩

/-- C6 amended: on zero exit with undecodable stdout, execute fails with
MalformedResponse whose message carries the JSON decode error description
(not the raw captured output), and the tracker record ends failed with
that message. -/
theorem c6_malformed_response (fs : FileSystem) (env : ExecEnv) (st : ManagerState)
    (action project_path : String) (timeout : Nat) (clock : Nat → Nat) (newPid : Nat)
    (e : String) (stdout stderr : String)
    (hvalid : validate_unity_project_path fs project_path = true)
    (hspawn : env.spawnOk = true)
    (hcomm : env.comm = .exited 0 stdout stderr)
    (hdecode : json_loads stdout = .error e) :
    (execute_unity_command fs env st action project_path timeout clock newPid).1 =
      .raised .malformedResponse ("Failed to parse Unity output: " ++ e) ∧
    ∃ op, dictGet (execute_unity_command fs env st action project_path timeout clock
        newPid).2.1.active_operations (action ++ "_" ++ Nat.repr (clock 0)) = some op ∧
      op.status = "failed" ∧
      op.error = some ("Failed to parse Unity output: " ++ e) := by
  simp only [execute_unity_command, hvalid, hspawn, hcomm, hdecode]
  exact ⟨rfl, _, dictGet_dictInsert _ _ _, rfl, rfl⟩

/-- C6 witness: the amended theorem applied at the concrete stdout
"not json". -/
theorem c6_malformed_witness :
    (execute_unity_command fsGood envNotJson initialManagerState "asset.audit" "/proj" 300
        (fun n => n) 2).1 =
      .raised .malformedResponse ("Failed to parse Unity output: " ++
        "Expecting value: line 1 column 1 (char 0)") ∧
    ∃ op, dictGet (execute_unity_command fsGood envNotJson initialManagerState "asset.audit"
        "/proj" 300 (fun n => n) 2).2.1.active_operations
        ("asset.audit" ++ "_" ++ Nat.repr 0) = some op ∧
      op.status = "failed" ∧
      op.error = some ("Failed to parse Unity output: " ++
        "Expecting value: line 1 column 1 (char 0)") :=
  c6_malformed_response fsGood envNotJson initialManagerState "asset.audit" "/proj" 300
    (fun n => n) 2 "Expecting value: line 1 column 1 (char 0)" "not json" "" rfl rfl rfl rfl

/-- C7: on nonzero subprocess exit, execute fails with ProcessFailed whose
message carries the exit code and the captured stderr text, and the
tracker record ends failed. -/
theorem c7_process_failed (fs : FileSystem) (env : ExecEnv) (st : ManagerState)
    (action project_path : String) (timeout : Nat) (clock : Nat → Nat) (newPid : Nat)
    (rc : Int) (stdout stderr : String)
    (hvalid : validate_unity_project_path fs project_path = true)
    (hspawn : env.spawnOk = true)
    (hcomm : env.comm = .exited rc stdout stderr)
    (hrc : rc ≠ 0) :
    (execute_unity_command fs env st action project_path timeout clock newPid).1 =
      .raised .processFailed
        ("Unity process failed with code " ++ toString rc ++ ": " ++ stderr) ∧
    ∃ op, dictGet (execute_unity_command fs env st action project_path timeout clock
        newPid).2.1.active_operations (action ++ "_" ++ Nat.repr (clock 0)) = some op ∧
      op.status = "failed" ∧
      op.error = some ("Unity process failed with code " ++ toString rc ++ ": " ++ stderr)
      := by
  simp only [execute_unity_command, hvalid, hspawn, hcomm, hrc]
  exact ⟨rfl, _, dictGet_dictInsert _ _ _, rfl, rfl⟩

/-- C7 witness: the theorem applied at exit code 1 with stderr
"NullReferenceException". -/
theorem c7_process_failed_witness :
    (execute_unity_command fsGood envExit1 initialManagerState "test.run" "/proj" 300
        (fun n => n) 3).1 =
      .raised .processFailed
        ("Unity process failed with code " ++ toString (1 : Int) ++ ": " ++
          "NullReferenceException") ∧
    ∃ op, dictGet (execute_unity_command fsGood envExit1 initialManagerState "test.run"
        "/proj" 300 (fun n => n) 3).2.1.active_operations
        ("test.run" ++ "_" ++ Nat.repr 0) = some op ∧
      op.status = "failed" ∧
      op.error = some ("Unity process failed with code " ++ toString (1 : Int) ++ ": " ++
        "NullReferenceException") :=
  c7_process_failed fsGood envExit1 initialManagerState "test.run" "/proj" 300
    (fun n => n) 3 1 "" "NullReferenceException" rfl rfl rfl (by decide)

/-- C8 counterexample: the claim says two concurrent invocations of the
same action never receive colliding ids.  Two distinct invocations of
build.run whose entry clock readings coincide receive the same id. -/
theorem c8_same_timestamp_ids_collide :
    (execute_unity_command fsGood envJsonOk initialManagerState "build.run" "/proj" 300
        (fun _ => 100) 1).2.2.opId =
    (execute_unity_command fsGood envTimeout initialManagerState "build.run" "/proj" 300
        (fun _ => 100) 2).2.2.opId ∧
    (execute_unity_command fsGood envJsonOk initialManagerState "build.run" "/proj" 300
        (fun _ => 100) 1).2.2.opId = "build.run_100" :=
  ⟨rfl, rfl⟩

/-- C8 amended: the operation id is composed from the action name and the
timestamp reading at call entry; two invocations of the same action
receive distinct ids whenever their timestamp readings differ (but
invocations at the same reading collide). -/
theorem c8_distinct_timestamps_distinct_ids (fs1 fs2 : FileSystem)
    (env1 env2 : ExecEnv) (st1 st2 : ManagerState) (action p1 p2 : String)
    (t1 t2 : Nat) (c1 c2 : Nat → Nat) (pid1 pid2 : Nat)
    (h : c1 0 ≠ c2 0) :
    (execute_unity_command fs1 env1 st1 action p1 t1 c1 pid1).2.2.opId ≠
    (execute_unity_command fs2 env2 st2 action p2 t2 c2 pid2).2.2.opId := by
  rw [opId_eq, opId_eq]
  intro he
  apply h
  apply natRepr_inj
  have hd := congrArg String.data he
  simp only [String.data_append] at hd
  have hc := List.append_cancel_left hd
  exact String.ext hc

/-- C8 witness: the amended theorem applied at two invocations with
distinct entry clock readings. -/
theorem c8_distinct_ids_witness :
    (execute_unity_command fsGood envJsonOk initialManagerState "build.run" "/proj" 300
        (fun n => n) 1).2.2.opId ≠
    (execute_unity_command fsGood envJsonOk initialManagerState "build.run" "/proj" 300
        (fun n => n + 1) 2).2.2.opId :=
  c8_distinct_timestamps_distinct_ids fsGood fsGood envJsonOk envJsonOk
    initialManagerState initialManagerState "build.run" "/proj" "/proj" 300 300
    (fun n => n) (fun n => n + 1) 1 2 (by decide)

/-- C9 counterexample: the claim says validation returns true iff the
path contains an assets SUBDIRECTORY and a settings SUBDIRECTORY.  On a
filesystem where /p/Assets exists as a regular file, the code's
validation returns true while the spec's wording requires false. -/
theorem c9_file_passes_validation :
    validate_unity_project_path fsAssetsFile "/p" = true ∧
    spec_validate_project_path fsAssetsFile "/p" = false :=
  ⟨rfl, rfl⟩

/-- C9 amended: validation returns true iff the path exists, is a
directory, and entries named Assets and ProjectSettings exist under it
(their existence is checked, not that they are directories); and the
check precedes every subprocess spawn: whenever execute spawns a
subprocess, validation of the project path returned true. -/
theorem c9_validation_exists_and_precedes_spawn :
    (∀ fs path, validate_unity_project_path fs path = true ↔
      ((∃ en ∈ fs, en.path = path) ∧
       (∃ en ∈ fs, en.path = path ∧ en.isDir = true) ∧
       (∃ en ∈ fs, en.path = path ++ "/Assets") ∧
       (∃ en ∈ fs, en.path = path ++ "/ProjectSettings"))) ∧
    (∀ fs env st action project_path timeout clock newPid,
      (execute_unity_command fs env st action project_path timeout clock
          newPid).2.2.spawned = true →
      validate_unity_project_path fs project_path = true) := by
  constructor
  · intro fs path
    simp [validate_unity_project_path, fsExists, fsIsDir, List.any_eq_true,
      Bool.and_eq_true, beq_iff_eq]
    tauto
  · intro fs env st action project_path timeout clock newPid hsp
    by_contra hv
    have hfalse : validate_unity_project_path fs project_path = false := by
      simpa using hv
    have hspawnfalse : (execute_unity_command fs env st action project_path timeout clock
        newPid).2.2.spawned = false := by
      simp [execute_unity_command, hfalse]
    rw [hspawnfalse] at hsp
    exact Bool.noConfusion hsp

/-- C9 witness: both parts of the amended theorem applied at concrete
inputs — the characterization at the valid fixture project, and the
spawn-precedence implication at a run that spawned. -/
theorem c9_validation_witness :
    (validate_unity_project_path fsGood "/proj" = true ↔
      ((∃ en ∈ fsGood, en.path = "/proj") ∧
       (∃ en ∈ fsGood, en.path = "/proj" ∧ en.isDir = true) ∧
       (∃ en ∈ fsGood, en.path = "/proj" ++ "/Assets") ∧
       (∃ en ∈ fsGood, en.path = "/proj" ++ "/ProjectSettings"))) ∧
    validate_unity_project_path fsGood "/proj" = true :=
  ⟨c9_validation_exists_and_precedes_spawn.1 fsGood "/proj",
   c9_validation_exists_and_precedes_spawn.2 fsGood envJsonOk initialManagerState
     "project.scan" "/proj" 300 (fun n => n) 1 rfl⟩

end UnityMCP
